import Mathlib

/-!
Shallow embedding of `reana_workflow_controller/opensearch.py`, the
OpenSearch log-fetching module of reana-workflow-controller.

The remote OpenSearch client is embedded as a function from search
requests to `Except String SearchResponse`: an `Except.error` value
models an exception raised by the remote call.  Each fetch operation
returns a `FetchOutcome` recording the Python return value, the list of
search requests actually issued to the client (so that the absence of a
network call is observable), and the fetcher object after the call (so
that frame properties over the configuration fields are statable).
Python exceptions that would escape a method are modelled by the
`Except.error` case of the result.
-/

/-- One `\x7b"match": \x7bfield: value\x7d\x7d` clause of a query body, or the
boolean `must` combination of such clauses, mirroring the two query
shapes built by `fetch_logs`.  A `boolMust` entry `(field, value)`
stands for the clause `\x7b"match": \x7bfield: value\x7d\x7d`; the single-match
value is the `id` argument, which Python allows to be `None`. -/
inductive QueryBody where
  | matchSingle (field : String) (value : Option String)
  | boolMust (must : List (String × String))
deriving DecidableEq, Repr

/-- The full query document: the query body plus the sort clause
`[\x7b"@timestamp": \x7b"order": self.order\x7d\x7d]`, embedded as a list of
(sort field, order) pairs. -/
structure QueryDoc where
  query : QueryBody
  sort : List (String × String)
deriving DecidableEq, Repr

/-- The arguments of one `self.os_client.search(...)` invocation. -/
structure SearchRequest where
  index : String
  body : QueryDoc
  size : Nat
  timeout : Nat
deriving DecidableEq, Repr

/-- One hit document of a search response; `source` embeds the Python
`_source` dictionary as an association list with distinct keys. -/
structure Hit where
  source : List (String × String)
deriving DecidableEq, Repr

/-- The `response["hits"]` object of a search response. -/
structure HitsObject where
  hits : List Hit
deriving DecidableEq, Repr

/-- A successful search response, of which the code reads only
`response["hits"]["hits"]`. -/
structure SearchResponse where
  hits : HitsObject
deriving DecidableEq, Repr

/-- Python dictionary lookup `d[k]` on the association-list embedding:
`some v` when the key is present, `none` for a `KeyError`. -/
def dictGet : List (String × String) → String → Option String
  | [], _ => none
  | (k, v) :: rest, key => if k == key then some v else dictGet rest key

/-- Python truthiness of the `matches : dict | None` parameter:
truthy exactly when it is a dictionary with at least one entry. -/
def dictTruthy : Option (List (String × String)) → Bool
  | none => false
  | some l => !l.isEmpty

/-- Python truthiness of the `match : str = None` parameter:
truthy exactly when it is a string other than the empty string. -/
def strTruthy : Option String → Bool
  | none => false
  | some s => !(s == "")

/-- The configuration fields of `OpenSearchLogFetcher`, with the default
values of `__init__`.  The connection handle `os_client` is not a
configuration value; it is embedded as an explicit function argument of
the fetch operations. -/
structure OpenSearchLogFetcher where
  job_index : String := "fluentbit-job_log"
  workflow_index : String := "fluentbit-workflow_log"
  dask_index : String := "fluentbit-dask_log"
  max_rows : Nat := 5000
  log_key : String := "log"
  order : String := "asc"
  job_log_matcher : String := "kubernetes.labels.job-name.keyword"
  workflow_log_matcher : String := "kubernetes.labels.reana-run-batch-workflow-uuid.keyword"
  dask_log_matcher : String := "kubernetes.labels.dask.org/cluster-name.keyword"
  timeout : Nat := 5
deriving DecidableEq, Repr

/-- The embedded OpenSearch client: a map from a search request to
either a response or a raised exception (the error message). -/
abbrev OsClient : Type := SearchRequest → Except String SearchResponse

/-- Observable outcome of one fetch operation: the returned value
(`Except.error` when an exception escapes the method, otherwise the
`str | None` Python return value), the search requests issued to the
client during the call, and the fetcher object after the call. -/
structure FetchOutcome where
  result : Except String (Option String)
  requests : List SearchRequest
  fetcher : OpenSearchLogFetcher
deriving Repr

/-- The loop body of `_concat_rows`: starting from the accumulated
`logs` string, append `hit["_source"][self.log_key] + "\n"` for every
hit in turn; a missing key raises a `KeyError`. -/
def concatRowsLoop (self : OpenSearchLogFetcher) :
    List Hit → String → Except String String
  | [], logs => .ok logs
  | hit :: rest, logs =>
    match dictGet hit.source self.log_key with
    | some v => concatRowsLoop self rest (logs ++ v ++ "\n")
    | none => .error "KeyError"

/-- `OpenSearchLogFetcher._concat_rows`: concatenate the log-text field
of every row, each followed by a line break, starting from `""`. -/
def OpenSearchLogFetcher.concat_rows (self : OpenSearchLogFetcher)
    (rows : List Hit) : Except String String :=
  concatRowsLoop self rows ""

/-- The `try: response = self.os_client.search(...) except ... return None`
block followed by `return self._concat_rows(response["hits"]["hits"])`.
The request is issued exactly once; an exception from the client is
caught and turned into the return value `None`. -/
def OpenSearchLogFetcher.runSearch (self : OpenSearchLogFetcher)
    (os_client : OsClient) (index : String) (query : QueryDoc) :
    FetchOutcome :=
  let req : SearchRequest :=
    { index := index, body := query, size := self.max_rows,
      timeout := self.timeout }
  match os_client req with
  | .error _ => { result := .ok none, requests := [req], fetcher := self }
  | .ok response =>
    { result := (self.concat_rows response.hits.hits).map some,
      requests := [req], fetcher := self }

/-- `OpenSearchLogFetcher.fetch_logs(id, index, match=None, matches=None)`.
The Python parameters `match` and `matches` are Lean keywords and are
embedded as `match_arg` and `matches_arg`; `id` has type
`Option String` because the Dask fetchers pass `id=None`. -/
def OpenSearchLogFetcher.fetch_logs (self : OpenSearchLogFetcher)
    (os_client : OsClient) (id : Option String) (index : String)
    (match_arg : Option String := none)
    (matches_arg : Option (List (String × String)) := none) : FetchOutcome :=
  if dictTruthy matches_arg then
    self.runSearch os_client index
      { query := .boolMust (matches_arg.getD []),
        sort := [("@timestamp", self.order)] }
  else if strTruthy match_arg then
    self.runSearch os_client index
      { query := .matchSingle (match_arg.getD "") id,
        sort := [("@timestamp", self.order)] }
  else
    { result := .ok none, requests := [], fetcher := self }

/-- `OpenSearchLogFetcher.fetch_job_logs(backend_job_id)`. -/
def OpenSearchLogFetcher.fetch_job_logs (self : OpenSearchLogFetcher)
    (os_client : OsClient) (backend_job_id : String) : FetchOutcome :=
  self.fetch_logs os_client (some backend_job_id) self.job_index
    (some self.job_log_matcher)

/-- `OpenSearchLogFetcher.fetch_workflow_logs(workflow_id)`. -/
def OpenSearchLogFetcher.fetch_workflow_logs (self : OpenSearchLogFetcher)
    (os_client : OsClient) (workflow_id : String) : FetchOutcome :=
  self.fetch_logs os_client (some workflow_id) self.workflow_index
    (some self.workflow_log_matcher)

/-- The literal field name `"kubernetes.labels.dask.org/component"`
used by both Dask matcher dictionaries. -/
def dask_component_label : String := "kubernetes.labels.dask.org/component"

/-- The `matches` dictionary built by `fetch_dask_scheduler_logs`.  The
external naming function `get_dask_component_name` (owned by
`reana_commons.utils`, not this module) is an explicit argument. -/
def OpenSearchLogFetcher.dask_scheduler_matches (self : OpenSearchLogFetcher)
    (get_dask_component_name : String → String → String)
    (workflow_id : String) : List (String × String) :=
  [(self.dask_log_matcher, get_dask_component_name workflow_id "cluster"),
   (dask_component_label, "scheduler")]

/-- The `matches` dictionary built by `fetch_dask_worker_logs`. -/
def OpenSearchLogFetcher.dask_worker_matches (self : OpenSearchLogFetcher)
    (get_dask_component_name : String → String → String)
    (workflow_id : String) : List (String × String) :=
  [(self.dask_log_matcher, get_dask_component_name workflow_id "cluster"),
   (dask_component_label, "worker")]

/-- `OpenSearchLogFetcher.fetch_dask_scheduler_logs(workflow_id)`. -/
def OpenSearchLogFetcher.fetch_dask_scheduler_logs
    (self : OpenSearchLogFetcher) (os_client : OsClient)
    (get_dask_component_name : String → String → String)
    (workflow_id : String) : FetchOutcome :=
  self.fetch_logs os_client none self.dask_index none
    (some (self.dask_scheduler_matches get_dask_component_name workflow_id))

/-- `OpenSearchLogFetcher.fetch_dask_worker_logs(workflow_id)`. -/
def OpenSearchLogFetcher.fetch_dask_worker_logs
    (self : OpenSearchLogFetcher) (os_client : OsClient)
    (get_dask_component_name : String → String → String)
    (workflow_id : String) : FetchOutcome :=
  self.fetch_logs os_client none self.dask_index none
    (some (self.dask_worker_matches get_dask_component_name workflow_id))

/-- The fetcher produced by `OpenSearchLogFetcher()` with every
configuration argument left at its default. -/
def defaultOpenSearchLogFetcher : OpenSearchLogFetcher := {}

/-- `build_opensearch_log_fetcher()`.  The process-wide flag
`REANA_OPENSEARCH_ENABLED` comes from the configuration module and is
embedded as the explicit argument `reana_opensearch_enabled`. -/
def build_opensearch_log_fetcher (reana_opensearch_enabled : Bool) :
    Option OpenSearchLogFetcher :=
  if reana_opensearch_enabled then some defaultOpenSearchLogFetcher else none

/-! ## Helper lemmas -/

theorem string_foldl_append (l : List String) (s : String) :
    l.foldl (fun r t => r ++ t) s = s ++ l.foldl (fun r t => r ++ t) "" := by
  induction l generalizing s with
  | nil => simp
  | cons a l ih =>
    simp only [List.foldl_cons]
    rw [ih (s ++ a), ih ("" ++ a), String.empty_append, String.append_assoc]

theorem string_join_cons (a : String) (l : List String) :
    String.join (a :: l) = a ++ String.join l := by
  simp only [String.join, List.foldl_cons, String.empty_append]
  exact string_foldl_append l a

theorem concatRowsLoop_ok (self : OpenSearchLogFetcher) (rows : List Hit)
    (h : ∀ hit ∈ rows, (dictGet hit.source self.log_key).isSome) :
    ∀ acc : String,
      concatRowsLoop self rows acc =
        .ok (acc ++ String.join (rows.map
          (fun hit => (dictGet hit.source self.log_key).getD "" ++ "\n"))) := by
  induction rows with
  | nil => intro acc; simp [concatRowsLoop, String.join]
  | cons hit rest ih =>
    intro acc
    have hh := h hit (List.mem_cons_self _ _)
    obtain ⟨v, hv⟩ := Option.isSome_iff_exists.mp hh
    have hrest := ih (fun x hx => h x (List.mem_cons_of_mem _ hx))
    simp [concatRowsLoop, hv, hrest, string_join_cons, String.append_assoc]

/-! ## Claim theorems -/

/-- C2: calling `fetch_logs` with neither the `match` nor the `matches`
argument returns `None`, issues no search request to the client, and
leaves the fetcher untouched. -/
theorem fetch_logs_neither_matcher (f : OpenSearchLogFetcher)
    (os_client : OsClient) (id : Option String) (index : String) :
    f.fetch_logs os_client id index none none =
      { result := .ok none, requests := [], fetcher := f } := rfl

/-- C10: an empty `matches` dictionary is falsy in Python, so with
`matches = \x7b\x7d` and no `match` the call takes the misuse branch and
returns `None` with no search request, rather than building a boolean
query with an empty must list. -/
theorem fetch_logs_empty_matches_dict (f : OpenSearchLogFetcher)
    (os_client : OsClient) (id : Option String) (index : String) :
    f.fetch_logs os_client id index none (some []) =
      { result := .ok none, requests := [], fetcher := f } := rfl

/-- C7: `build_opensearch_log_fetcher` returns the default-constructed
fetcher exactly when the `REANA_OPENSEARCH_ENABLED` flag is set, and
`None` when it is not. -/
theorem build_opensearch_log_fetcher_iff_enabled (b : Bool) :
    ((build_opensearch_log_fetcher b).isSome = b) ∧
    (build_opensearch_log_fetcher true = some defaultOpenSearchLogFetcher) ∧
    (build_opensearch_log_fetcher false = none) := by
  refine ⟨?_, rfl, rfl⟩
  cases b <;> rfl

/-- C8: every fetch operation returns the fetcher configuration
unchanged: the post-call fetcher equals the pre-call fetcher for
`fetch_logs`, `fetch_job_logs`, `fetch_workflow_logs`,
`fetch_dask_scheduler_logs` and `fetch_dask_worker_logs`. -/
theorem fetch_ops_preserve_fetcher (f : OpenSearchLogFetcher)
    (os_client : OsClient) (id : Option String) (index : String)
    (m : Option String) (ms : Option (List (String × String)))
    (jid wid : String) (g : String → String → String) (w : String) :
    (f.fetch_logs os_client id index m ms).fetcher = f ∧
    (f.fetch_job_logs os_client jid).fetcher = f ∧
    (f.fetch_workflow_logs os_client wid).fetcher = f ∧
    (f.fetch_dask_scheduler_logs os_client g w).fetcher = f ∧
    (f.fetch_dask_worker_logs os_client g w).fetcher = f := by
  have key : ∀ (idv : Option String) (ix : String) (mv : Option String)
      (msv : Option (List (String × String))),
      (f.fetch_logs os_client idv ix mv msv).fetcher = f := by
    intro idv ix mv msv
    unfold OpenSearchLogFetcher.fetch_logs OpenSearchLogFetcher.runSearch
    dsimp only
    split
    · split <;> rfl
    · split
      · split <;> rfl
      · rfl
  exact ⟨key _ _ _ _, key _ _ _ _, key _ _ _ _, key _ _ _ _, key _ _ _ _⟩

/-- C3: when the remote search invocation raises (a client that throws
on every request), `fetch_logs` catches the exception and returns
`None`; no exception escapes the search step and exactly one request is
issued, so there is no retry. -/
theorem fetch_logs_search_error (f : OpenSearchLogFetcher)
    (id : Option String) (index : String) (m : Option String)
    (ms : Option (List (String × String))) (e : String)
    (hsearch : dictTruthy ms = true ∨ strTruthy m = true) :
    (f.fetch_logs (fun _ => Except.error e) id index m ms).result =
      Except.ok none ∧
    (f.fetch_logs (fun _ => Except.error e) id index m ms).requests.length
      = 1 := by
  unfold OpenSearchLogFetcher.fetch_logs OpenSearchLogFetcher.runSearch
  dsimp only
  split
  · exact ⟨rfl, rfl⟩
  · split
    · exact ⟨rfl, rfl⟩
    · rcases hsearch with h | h <;> simp_all

theorem fetch_logs_search_error_witness :
    (defaultOpenSearchLogFetcher.fetch_logs (fun _ => Except.error "boom")
        (some "job-1") "fluentbit-job_log"
        (some "kubernetes.labels.job-name.keyword") none).result =
      Except.ok none ∧
    (defaultOpenSearchLogFetcher.fetch_logs (fun _ => Except.error "boom")
        (some "job-1") "fluentbit-job_log"
        (some "kubernetes.labels.job-name.keyword") none).requests.length
      = 1 :=
  fetch_logs_search_error defaultOpenSearchLogFetcher (some "job-1")
    "fluentbit-job_log" (some "kubernetes.labels.job-name.keyword") none
    "boom" (Or.inr (by decide))

/-- C4: a call supplying a single-field matcher and no multi-field
dictionary issues exactly one request whose query document holds
exactly one match clause, on the supplied field with the given id as
value, plus the sort clause on `"@timestamp"` in the configured
order. -/
theorem fetch_logs_single_match_query (f : OpenSearchLogFetcher)
    (os_client : OsClient) (id : Option String) (index : String)
    (m : String) (hm : m ≠ "") :
    (f.fetch_logs os_client id index (some m) none).requests =
      [{ index := index,
         body := { query := .matchSingle m id,
                   sort := [("@timestamp", f.order)] },
         size := f.max_rows, timeout := f.timeout }] := by
  have h2 : strTruthy (some m) = true := by simp [strTruthy, hm]
  unfold OpenSearchLogFetcher.fetch_logs OpenSearchLogFetcher.runSearch
  simp only [dictTruthy, Bool.false_eq_true, if_false, h2, if_true,
    Option.getD_some]
  split <;> rfl

theorem fetch_logs_single_match_query_witness :
    ("kubernetes.labels.job-name.keyword" ≠ "") ∧
    (defaultOpenSearchLogFetcher.fetch_logs (fun _ => Except.error "down")
        (some "job-1") "fluentbit-job_log"
        (some "kubernetes.labels.job-name.keyword") none).requests =
      [{ index := "fluentbit-job_log",
         body := { query := .matchSingle
                     "kubernetes.labels.job-name.keyword" (some "job-1"),
                   sort := [("@timestamp", "asc")] },
         size := 5000, timeout := 5 }] :=
  ⟨by decide,
   fetch_logs_single_match_query defaultOpenSearchLogFetcher
     (fun _ => Except.error "down") (some "job-1") "fluentbit-job_log"
     "kubernetes.labels.job-name.keyword" (by decide)⟩

/-- C5: a call supplying a non-empty multi-field matcher dictionary
issues exactly one request whose query document is a boolean query
whose must list holds exactly one match clause per supplied
field/value pair, plus the sort clause on `"@timestamp"` in the
configured order. -/
theorem fetch_logs_multi_match_query (f : OpenSearchLogFetcher)
    (os_client : OsClient) (id : Option String) (index : String)
    (m : Option String) (ms : List (String × String)) (hms : ms ≠ []) :
    (f.fetch_logs os_client id index m (some ms)).requests =
      [{ index := index,
         body := { query := .boolMust ms,
                   sort := [("@timestamp", f.order)] },
         size := f.max_rows, timeout := f.timeout }] := by
  have h1 : dictTruthy (some ms) = true := by simp [dictTruthy, hms]
  unfold OpenSearchLogFetcher.fetch_logs OpenSearchLogFetcher.runSearch
  simp only [h1, if_true, Option.getD_some]
  split <;> rfl

theorem fetch_logs_multi_match_query_witness :
    ([(("a" : String), ("1" : String)), ("b", "2")] ≠ []) ∧
    (defaultOpenSearchLogFetcher.fetch_logs (fun _ => Except.error "down")
        none "fluentbit-dask_log" none (some [("a", "1"), ("b", "2")])).requests =
      [{ index := "fluentbit-dask_log",
         body := { query := .boolMust [("a", "1"), ("b", "2")],
                   sort := [("@timestamp", "asc")] },
         size := 5000, timeout := 5 }] :=
  ⟨by decide,
   fetch_logs_multi_match_query defaultOpenSearchLogFetcher
     (fun _ => Except.error "down") none "fluentbit-dask_log" none
     [("a", "1"), ("b", "2")] (by decide)⟩

/-- C9: when both a single-field matcher and a non-empty multi-field
dictionary are supplied, the multi-field dictionary takes precedence:
the whole outcome equals the outcome of the same call with the
single-field matcher and the id dropped, no misuse error occurs, and
the one issued query is the boolean multi-match query. -/
theorem fetch_logs_matches_precedence (f : OpenSearchLogFetcher)
    (os_client : OsClient) (index : String) (id id' m' : Option String)
    (m : String) (ms : List (String × String)) (hms : ms ≠ []) :
    f.fetch_logs os_client id index (some m) (some ms) =
      f.fetch_logs os_client id' index m' (some ms) ∧
    (f.fetch_logs os_client id index (some m) (some ms)).requests.map
        SearchRequest.body =
      [{ query := .boolMust ms, sort := [("@timestamp", f.order)] }] := by
  have h1 : dictTruthy (some ms) = true := by simp [dictTruthy, hms]
  constructor
  · unfold OpenSearchLogFetcher.fetch_logs
    simp [h1]
  · unfold OpenSearchLogFetcher.fetch_logs OpenSearchLogFetcher.runSearch
    simp only [h1, if_true]
    split <;> rfl

theorem fetch_logs_matches_precedence_witness :
    ([(("f1" : String), ("v1" : String))] ≠ []) ∧
    (defaultOpenSearchLogFetcher.fetch_logs (fun _ => Except.error "x")
        (some "ignored-id") "fluentbit-dask_log" (some "ignored-field")
        (some [("f1", "v1")]) =
      defaultOpenSearchLogFetcher.fetch_logs (fun _ => Except.error "x")
        none "fluentbit-dask_log" none (some [("f1", "v1")]) ∧
    (defaultOpenSearchLogFetcher.fetch_logs (fun _ => Except.error "x")
        (some "ignored-id") "fluentbit-dask_log" (some "ignored-field")
        (some [("f1", "v1")])).requests.map SearchRequest.body =
      [{ query := .boolMust [("f1", "v1")],
         sort := [("@timestamp", "asc")] }]) :=
  ⟨by decide,
   fetch_logs_matches_precedence defaultOpenSearchLogFetcher
     (fun _ => Except.error "x") "fluentbit-dask_log" (some "ignored-id")
     none none "ignored-field" [("f1", "v1")] (by decide)⟩

/-- C6: for every workflow identifier, the matcher dictionaries built
by `fetch_dask_scheduler_logs` and `fetch_dask_worker_logs` are
identical except for the value of the component field (`"scheduler"`
versus `"worker"`), both use the same cluster-name value
`get_dask_component_name workflow_id "cluster"`, and the queries the
two operations issue are exactly the boolean multi-match queries over
these dictionaries. -/
theorem dask_scheduler_worker_matcher_relation (f : OpenSearchLogFetcher)
    (os_client : OsClient)
    (get_dask_component_name : String → String → String) (w : String) :
    ∃ cluster : String,
      cluster = get_dask_component_name w "cluster" ∧
      f.dask_scheduler_matches get_dask_component_name w =
        [(f.dask_log_matcher, cluster), (dask_component_label, "scheduler")] ∧
      f.dask_worker_matches get_dask_component_name w =
        [(f.dask_log_matcher, cluster), (dask_component_label, "worker")] ∧
      (f.fetch_dask_scheduler_logs os_client get_dask_component_name
          w).requests.map SearchRequest.body =
        [{ query := .boolMust
             (f.dask_scheduler_matches get_dask_component_name w),
           sort := [("@timestamp", f.order)] }] ∧
      (f.fetch_dask_worker_logs os_client get_dask_component_name
          w).requests.map SearchRequest.body =
        [{ query := .boolMust
             (f.dask_worker_matches get_dask_component_name w),
           sort := [("@timestamp", f.order)] }] := by
  refine ⟨get_dask_component_name w "cluster", rfl, rfl, rfl, ?_, ?_⟩
  · unfold OpenSearchLogFetcher.fetch_dask_scheduler_logs
      OpenSearchLogFetcher.fetch_logs OpenSearchLogFetcher.runSearch
      OpenSearchLogFetcher.dask_scheduler_matches
    simp only [dictTruthy, List.isEmpty, Bool.not_false, if_true,
      Option.getD_some]
    split <;> rfl
  · unfold OpenSearchLogFetcher.fetch_dask_worker_logs
      OpenSearchLogFetcher.fetch_logs OpenSearchLogFetcher.runSearch
      OpenSearchLogFetcher.dask_worker_matches
    simp only [dictTruthy, List.isEmpty, Bool.not_false, if_true,
      Option.getD_some]
    split <;> rfl

/-- C1: on a successful search (the client returns a response) whose
hits all carry the configured log-text field, the result of
`fetch_logs` is the string joining, in the engine-provided order, each
hit's log-text value followed by one line break; and for an empty hit
list the result is `some ""`, the empty string, not `None`. -/
theorem fetch_logs_concatenates_hits (f : OpenSearchLogFetcher)
    (resp : SearchResponse) (id : Option String) (index : String)
    (m : Option String) (ms : Option (List (String × String)))
    (hsearch : dictTruthy ms = true ∨ strTruthy m = true)
    (hfields : ∀ hit ∈ resp.hits.hits,
      (dictGet hit.source f.log_key).isSome) :
    (f.fetch_logs (fun _ => Except.ok resp) id index m ms).result =
      Except.ok (some (String.join (resp.hits.hits.map
        (fun hit => (dictGet hit.source f.log_key).getD "" ++ "\n")))) ∧
    (f.fetch_logs (fun _ => Except.ok ⟨⟨[]⟩⟩) id index m ms).result =
      Except.ok (some "") := by
  have hcr := concatRowsLoop_ok f resp.hits.hits hfields ""
  have hnil : concatRowsLoop f ([] : List Hit) "" = .ok "" := rfl
  constructor
  · unfold OpenSearchLogFetcher.fetch_logs OpenSearchLogFetcher.runSearch
    split
    · simp [OpenSearchLogFetcher.concat_rows, hcr, Except.map]
    · split
      · simp [OpenSearchLogFetcher.concat_rows, hcr, Except.map]
      · rcases hsearch with h | h <;> simp_all
  · unfold OpenSearchLogFetcher.fetch_logs OpenSearchLogFetcher.runSearch
    split
    · simp [OpenSearchLogFetcher.concat_rows, hnil, Except.map]
    · split
      · simp [OpenSearchLogFetcher.concat_rows, hnil, Except.map]
      · rcases hsearch with h | h <;> simp_all

theorem fetch_logs_concatenates_hits_witness :
    ((dictTruthy none = true ∨ strTruthy (some "field") = true) ∧
      ∀ hit ∈ ([⟨[("log", "line1")]⟩, ⟨[("log", "line2")]⟩] : List Hit),
        (dictGet hit.source defaultOpenSearchLogFetcher.log_key).isSome) ∧
    (defaultOpenSearchLogFetcher.fetch_logs
        (fun _ => Except.ok ⟨⟨[⟨[("log", "line1")]⟩, ⟨[("log", "line2")]⟩]⟩⟩)
        (some "wf-1") "fluentbit-workflow_log" (some "field") none).result =
      Except.ok (some "line1\nline2\n") ∧
    (defaultOpenSearchLogFetcher.fetch_logs (fun _ => Except.ok ⟨⟨[]⟩⟩)
        (some "wf-1") "fluentbit-workflow_log" (some "field") none).result =
      Except.ok (some "") := by
  have h := fetch_logs_concatenates_hits defaultOpenSearchLogFetcher
    ⟨⟨[⟨[("log", "line1")]⟩, ⟨[("log", "line2")]⟩]⟩⟩ (some "wf-1")
    "fluentbit-workflow_log" (some "field") none (Or.inr (by decide))
    (by decide)
  refine ⟨⟨Or.inr (by decide), by decide⟩, ?_, h.2⟩
  rw [h.1]
  rfl
